import Mathlib

/-!
Verification of the gesture-controlled-lights repository: a shallow
embedding over ℚ of `Hands.py` (finger geometry, extension counting,
distance-to-scale mapping) and of the debounced serial loop of
`Runner.py`, with theorems settling the specification claims.
-/

namespace GestureLights

/-- Python `int()` applied to a rational: truncation toward zero. -/
def pyInt (q : ℚ) : ℤ := if 0 ≤ q then q.floor else q.ceil

theorem pyInt_of_nonneg {q : ℚ} (h : 0 ≤ q) : pyInt q = ⌊q⌋ := by
  rw [pyInt, if_pos h, Rat.floor_def', Rat.floor_def]

/-- `numpy.interp(x, [xlo, xhi], [ylo, yhi])`: clamps below `xlo` to `ylo`,
above `xhi` to `yhi`, and linearly interpolates in between. -/
def npInterp (x xlo xhi ylo yhi : ℚ) : ℚ :=
  if x < xlo then ylo
  else if xhi < x then yhi
  else ylo + (x - xlo) * (yhi - ylo) / (xhi - xlo)

/-- The dict `{0: "ZERO", ..., 5: "FIVE"}` of `Hands.py`; `none` models a
`KeyError` on lookup of any other key. -/
def mapping (k : ℤ) : Option String :=
  if k = 0 then some "ZERO"
  else if k = 1 then some "ONE"
  else if k = 2 then some "TWO"
  else if k = 3 then some "THREE"
  else if k = 4 then some "FOUR"
  else if k = 5 then some "FIVE"
  else none

/-- The integer level `int(numpy.interp(distance, [min, max], [0, 5]))`
computed inside `map_distance_to_scale`. -/
def scale_level (distance min_distance max_distance : ℚ) : ℤ :=
  pyInt (npInterp distance min_distance max_distance 0 5)

/-- `map_distance_to_scale` of `Hands.py`: scales the distance to `[0,5]`,
truncates, and looks the level up in `mapping`. -/
def map_distance_to_scale (distance min_distance max_distance : ℚ) : Option String :=
  mapping (scale_level distance min_distance max_distance)

theorem npInterp_low {x xlo xhi ylo yhi : ℚ} (h : x < xlo) :
    npInterp x xlo xhi ylo yhi = ylo := by
  rw [npInterp, if_pos h]

theorem npInterp_high {x xlo xhi ylo yhi : ℚ} (h1 : ¬x < xlo) (h2 : xhi < x) :
    npInterp x xlo xhi ylo yhi = yhi := by
  rw [npInterp, if_neg h1, if_pos h2]

theorem npInterp_mid {x xlo xhi ylo yhi : ℚ} (h1 : ¬x < xlo) (h2 : ¬xhi < x) :
    npInterp x xlo xhi ylo yhi = ylo + (x - xlo) * (yhi - ylo) / (xhi - xlo) := by
  rw [npInterp, if_neg h1, if_neg h2]

theorem scale_level_low {d : ℚ} (h : d < 15) : scale_level d 15 200 = 0 := by
  rw [scale_level, npInterp_low h, pyInt_of_nonneg le_rfl, Int.floor_zero]

theorem scale_level_high {d : ℚ} (h : 200 < d) : scale_level d 15 200 = 5 := by
  rw [scale_level, npInterp_high (by linarith) h, pyInt_of_nonneg (by norm_num)]
  norm_num

theorem scale_level_mid {d : ℚ} (h1 : 15 ≤ d) (h2 : d ≤ 200) :
    scale_level d 15 200 = ⌊(d - 15) * 5 / 185⌋ := by
  have hnn : (0 : ℚ) ≤ 0 + (d - 15) * (5 - 0) / (200 - 15) := by
    have := div_nonneg (mul_nonneg (by linarith : (0:ℚ) ≤ d - 15) (by norm_num : (0:ℚ) ≤ 5 - 0))
      (by norm_num : (0:ℚ) ≤ 200 - 15)
    linarith
  rw [scale_level, npInterp_mid (by linarith) (by linarith), pyInt_of_nonneg hnn]
  congr 1
  ring

theorem scale_level_nonneg (d : ℚ) : 0 ≤ scale_level d 15 200 := by
  rcases lt_or_le d 15 with h | h1
  · rw [scale_level_low h]
  · rcases le_or_lt d 200 with h2 | h2
    · rw [scale_level_mid h1 h2]
      exact Int.floor_nonneg.mpr
        (div_nonneg (mul_nonneg (by linarith) (by norm_num)) (by norm_num))
    · rw [scale_level_high h2]; norm_num

theorem scale_level_le_five (d : ℚ) : scale_level d 15 200 ≤ 5 := by
  rcases lt_or_le d 15 with h | h1
  · rw [scale_level_low h]; norm_num
  · rcases le_or_lt d 200 with h2 | h2
    · rw [scale_level_mid h1 h2]
      have hle : (d - 15) * 5 / 185 ≤ (5 : ℚ) := by
        rw [div_le_iff₀ (by norm_num : (0:ℚ) < 185)]
        linarith
      calc ⌊(d - 15) * 5 / 185⌋ ≤ ⌊(5 : ℚ)⌋ := Int.floor_le_floor hle
        _ = 5 := by norm_num
    · rw [scale_level_high h2]

theorem mapping_mem {k : ℤ} (h0 : 0 ≤ k) (h5 : k ≤ 5) :
    ∃ w, mapping k = some w ∧ w ∈ ["ZERO", "ONE", "TWO", "THREE", "FOUR", "FIVE"] := by
  interval_cases k <;> exact ⟨_, rfl, by decide⟩

theorem map_scale_eval_zero : map_distance_to_scale 50 15 200 = some "ZERO" := by
  rw [map_distance_to_scale, scale_level_mid (by norm_num) (by norm_num)]
  have h : ⌊((50 : ℚ) - 15) * 5 / 185⌋ = 0 := by norm_num [Int.floor_eq_iff]
  rw [h]; rfl

theorem map_scale_eval_two : map_distance_to_scale 100 15 200 = some "TWO" := by
  rw [map_distance_to_scale, scale_level_mid (by norm_num) (by norm_num)]
  have h : ⌊((100 : ℚ) - 15) * 5 / 185⌋ = 2 := by norm_num [Int.floor_eq_iff]
  rw [h]; rfl

theorem map_scale_low {d : ℚ} (h : d < 15) : map_distance_to_scale d 15 200 = some "ZERO" := by
  rw [map_distance_to_scale, scale_level_low h]; rfl

theorem map_scale_high {d : ℚ} (h : 200 < d) : map_distance_to_scale d 15 200 = some "FIVE" := by
  rw [map_distance_to_scale, scale_level_high h]; rfl

theorem map_scale_at_min : map_distance_to_scale 15 15 200 = some "ZERO" := by
  rw [map_distance_to_scale, scale_level_mid le_rfl (by norm_num)]
  have h : ⌊((15 : ℚ) - 15) * 5 / 185⌋ = 0 := by norm_num
  rw [h]; rfl

theorem map_scale_at_max : map_distance_to_scale 200 15 200 = some "FIVE" := by
  rw [map_distance_to_scale, scale_level_mid (by norm_num) le_rfl]
  have h : ⌊((200 : ℚ) - 15) * 5 / 185⌋ = 5 := by norm_num [Int.floor_eq_iff]
  rw [h]; rfl

/-- C3: `map_distance_to_scale` with the default bounds 15 and 200 maps
distance 15 to level 0 (`"ZERO"`) and distance 200 to level 5 (`"FIVE"`),
and saturates at both ends: every distance below 15 yields level 0 and
every distance above 200 yields level 5. -/
theorem map_distance_to_scale_saturation :
    map_distance_to_scale 15 15 200 = some "ZERO" ∧
    map_distance_to_scale 200 15 200 = some "FIVE" ∧
    (∀ d : ℚ, d < 15 → map_distance_to_scale d 15 200 = some "ZERO") ∧
    (∀ d : ℚ, 200 < d → map_distance_to_scale d 15 200 = some "FIVE") :=
  ⟨map_scale_at_min, map_scale_at_max, fun _ h => map_scale_low h, fun _ h => map_scale_high h⟩

/-- Witness for C3 at the concrete distances 10 and 300. -/
theorem map_distance_to_scale_saturation_witness :
    map_distance_to_scale 10 15 200 = some "ZERO" ∧
    map_distance_to_scale 300 15 200 = some "FIVE" :=
  ⟨map_distance_to_scale_saturation.2.2.1 10 (by norm_num),
   map_distance_to_scale_saturation.2.2.2 300 (by norm_num)⟩

/-- C9: the distance-to-level mapping is monotonically non-decreasing on
`[15, 200]`: if `d1 ≤ d2` both lie in the interval, the level computed for
`d1` is at most the level computed for `d2`. -/
theorem scale_level_monotone (d1 d2 : ℚ) (h1 : 15 ≤ d1) (h12 : d1 ≤ d2) (h2 : d2 ≤ 200) :
    scale_level d1 15 200 ≤ scale_level d2 15 200 := by
  rw [scale_level_mid h1 (le_trans h12 h2), scale_level_mid (le_trans h1 h12) h2]
  apply Int.floor_le_floor
  gcongr

/-- Witness for C9 at the concrete distances 20 and 100. -/
theorem scale_level_monotone_witness : scale_level 20 15 200 ≤ scale_level 100 15 200 :=
  scale_level_monotone 20 100 (by norm_num) (by norm_num) (by norm_num)

/-- State of the `runner` main loop of `Runner.py`: the debounce record
`last_sent_data`, the sequence of payloads written to the serial port so
far, and the detector's cached `line_dist`. -/
structure RunState where
  last_sent_data : String
  writes : List String
  line_dist : ℚ
deriving DecidableEq

/-- The loop state just before the first iteration: `last_sent_data = ""`,
nothing written, and `Hand.__init__` sets `line_dist = 0`. -/
def initState : RunState := ⟨"", [], 0⟩

/-- Lines 80–87 of `Runner.py`: if `scaled` differs from `last_sent_data`,
attempt `serial_.write`; on success record the write and update
`last_sent_data`, on a `SerialException` leave the state unchanged and
break. The returned `Bool` is whether the loop continues. -/
def sendStep (s : RunState) (scaled : String) (writeOk : Bool) : RunState × Bool :=
  if scaled = s.last_sent_data then (s, true)
  else if writeOk then (⟨scaled, s.writes ++ [scaled], s.line_dist⟩, true)
  else (s, false)

/-- Fold `sendStep` (with all writes succeeding) over a list of payloads. -/
def runSends (s : RunState) (scaleds : List String) : RunState :=
  scaleds.foldl (fun st sc => (sendStep st sc true).1) s

/-- One iteration of the `runner` loop over an observation: `some d` means a
hand was visible with fingertip distance `d` (so `draw_line` updates
`line_dist`), `none` means no hand (so `line_dist` keeps its cached value).
The scaled payload is `str(map_distance_to_scale(line_dist)) + "\n"`;
a `KeyError` from the dict lookup would propagate. -/
def frameStep (s : RunState) (obs : Option ℚ) : Except String RunState :=
  match map_distance_to_scale (obs.getD s.line_dist) 15 200 with
  | none => Except.error "KeyError"
  | some name =>
    Except.ok
      (sendStep ⟨s.last_sent_data, s.writes, obs.getD s.line_dist⟩ (name ++ "\n") true).1

/-- The `runner` loop over a scripted list of observations. -/
def runFrames : RunState → List (Option ℚ) → Except String RunState
  | s, [] => Except.ok s
  | s, f :: rest => (frameStep s f).bind (fun s2 => runFrames s2 rest)

/-- C1: in each loop iteration a payload is written to the serial port if
and only if it differs from `last_sent_data`, the last successfully
transmitted value; in particular two consecutive sends of the same level
produce exactly one wire write, and a send of a different level produces a
second write. -/
theorem debounce_invariant :
    (∀ (s : RunState) (scaled : String),
      (sendStep s scaled true).1.writes =
        s.writes ++ (if scaled = s.last_sent_data then [] else [scaled])) ∧
    (runSends initState ["THREE\n", "THREE\n"]).writes.length = 1 ∧
    (runSends initState ["THREE\n", "FOUR\n"]).writes.length = 2 := by
  refine ⟨fun s scaled => ?_, by decide, by decide⟩
  by_cases h : scaled = s.last_sent_data
  · simp [sendStep, h]
  · simp [sendStep, h]

/-- C10: if the serial write raises, `last_sent_data` (and the whole state)
is left unchanged — it is updated only after a successful write — and the
loop breaks without retrying. -/
theorem write_failure_atomic (s : RunState) (scaled : String)
    (h : scaled ≠ s.last_sent_data) :
    (sendStep s scaled false).1 = s ∧ (sendStep s scaled false).2 = false := by
  simp [sendStep, h]

/-- Witness for C10: a failing write of `"THREE\n"` from the initial state
changes nothing and stops the loop. -/
theorem write_failure_atomic_witness :
    ("THREE\n" ≠ initState.last_sent_data) ∧
    (sendStep initState "THREE\n" false).1 = initState ∧
    (sendStep initState "THREE\n" false).2 = false :=
  ⟨by decide, write_failure_atomic initState "THREE\n" (by decide)⟩

/-- Evaluation lemma: one loop iteration, given the observed (or cached)
distance and its mapped name. -/
theorem frameStep_eval (s : RunState) (obs : Option ℚ) (ld : ℚ) (w : String)
    (hld : obs.getD s.line_dist = ld)
    (hmap : map_distance_to_scale ld 15 200 = some w) :
    frameStep s obs =
      Except.ok (sendStep ⟨s.last_sent_data, s.writes, ld⟩ (w ++ "\n") true).1 := by
  unfold frameStep
  rw [hld, hmap]

theorem sendStep_ne (s : RunState) (scaled : String) (h : scaled ≠ s.last_sent_data) :
    (sendStep s scaled true).1 = ⟨scaled, s.writes ++ [scaled], s.line_dist⟩ := by
  rw [sendStep, if_neg h]
  rfl

theorem sendStep_eq (s : RunState) (scaled : String) (h : scaled = s.last_sent_data) :
    (sendStep s scaled true).1 = s := by
  rw [sendStep, if_pos h]

theorem runFrames_cons (s : RunState) (f : Option ℚ) (rest : List (Option ℚ))
    (s' : RunState) (h : frameStep s f = Except.ok s') :
    runFrames s (f :: rest) = runFrames s' rest := by
  have e : runFrames s (f :: rest) = (frameStep s f).bind (fun s2 => runFrames s2 rest) := rfl
  rw [e, h]
  rfl

/-- Evaluation of the loop on the single observed distance 100. -/
theorem run_dist100_eval :
    runFrames initState [some 100] = Except.ok ⟨"TWO\n", ["TWO\n"], 100⟩ := by
  have f1 : frameStep initState (some 100) = Except.ok ⟨"TWO\n", ["TWO\n"], 100⟩ := by
    rw [frameStep_eval initState (some 100) 100 "TWO" rfl map_scale_eval_two,
      sendStep_ne ⟨initState.last_sent_data, initState.writes, 100⟩ ("TWO" ++ "\n")
        (by decide)]
    simp [initState]
  rw [runFrames_cons initState (some 100) [] _ f1]
  unfold runFrames
  rfl

/-- Evaluation of the loop on the scripted distances [10, 50, 205]. -/
theorem run_script_eval :
    runFrames initState [some 10, some 50, some 205] =
      Except.ok ⟨"FIVE\n", ["ZERO\n", "FIVE\n"], 205⟩ := by
  have f1 : frameStep initState (some 10) = Except.ok ⟨"ZERO\n", ["ZERO\n"], 10⟩ := by
    rw [frameStep_eval initState (some 10) 10 "ZERO" rfl (map_scale_low (by norm_num)),
      sendStep_ne ⟨initState.last_sent_data, initState.writes, 10⟩ ("ZERO" ++ "\n")
        (by decide)]
    simp [initState]
  have f2 : frameStep ⟨"ZERO\n", ["ZERO\n"], 10⟩ (some 50) =
      Except.ok ⟨"ZERO\n", ["ZERO\n"], 50⟩ := by
    rw [frameStep_eval ⟨"ZERO\n", ["ZERO\n"], 10⟩ (some 50) 50 "ZERO" rfl
        map_scale_eval_zero,
      sendStep_eq ⟨"ZERO\n", ["ZERO\n"], 50⟩ ("ZERO" ++ "\n") (by decide)]
  have f3 : frameStep ⟨"ZERO\n", ["ZERO\n"], 50⟩ (some 205) =
      Except.ok ⟨"FIVE\n", ["ZERO\n", "FIVE\n"], 205⟩ := by
    rw [frameStep_eval ⟨"ZERO\n", ["ZERO\n"], 50⟩ (some 205) 205 "FIVE" rfl
        (map_scale_high (by norm_num)),
      sendStep_ne ⟨"ZERO\n", ["ZERO\n"], 205⟩ ("FIVE" ++ "\n") (by decide)]
    simp
  rw [runFrames_cons _ _ _ _ f1, runFrames_cons _ _ _ _ f2, runFrames_cons _ _ _ _ f3]
  unfold runFrames
  rfl

/-- Evaluation of the loop on a single frame with no hand visible. -/
theorem run_nohand_eval :
    runFrames initState [none] = Except.ok ⟨"ZERO\n", ["ZERO\n"], 0⟩ := by
  have f1 : frameStep initState none = Except.ok ⟨"ZERO\n", ["ZERO\n"], 0⟩ := by
    rw [frameStep_eval initState none 0 "ZERO" rfl (map_scale_low (by norm_num)),
      sendStep_ne ⟨initState.last_sent_data, initState.writes, 0⟩ ("ZERO" ++ "\n")
        (by decide)]
    simp [initState]
  rw [runFrames_cons initState none [] _ f1]
  unfold runFrames
  rfl

/-- C2 counterexample: at distance 100 the level is 2, but the payload
written to the wire is `"TWO\n"` — the uppercase word, not the ASCII digit
`"2\n"` the claim requires. -/
theorem wire_format_counterexample :
    runFrames initState [some 100] = Except.ok ⟨"TWO\n", ["TWO\n"], 100⟩ ∧
    ("TWO\n" : String) ≠ "2\n" :=
  ⟨run_dist100_eval, by decide⟩

/-- C2 amended: every iteration completes without a `KeyError`, and any
payload it writes is the uppercase English name of the level (one of
`ZERO`..`FIVE`) followed by a newline, which also becomes the new
`last_sent_data`. -/
theorem wire_format (s : RunState) (obs : Option ℚ) :
    ∃ s', frameStep s obs = Except.ok s' ∧
      (s'.writes = s.writes ∨
        ∃ name, name ∈ ["ZERO", "ONE", "TWO", "THREE", "FOUR", "FIVE"] ∧
          s'.writes = s.writes ++ [name ++ "\n"] ∧
          s'.last_sent_data = name ++ "\n") := by
  obtain ⟨w, hw, hmem⟩ :=
    mapping_mem (scale_level_nonneg (obs.getD s.line_dist)) (scale_level_le_five _)
  have hmap : map_distance_to_scale (obs.getD s.line_dist) 15 200 = some w := by
    rw [map_distance_to_scale, hw]
  by_cases h : w ++ "\n" = s.last_sent_data
  · refine ⟨⟨s.last_sent_data, s.writes, obs.getD s.line_dist⟩, ?_, Or.inl rfl⟩
    rw [frameStep_eval s obs (obs.getD s.line_dist) w rfl hmap,
      sendStep_eq ⟨s.last_sent_data, s.writes, obs.getD s.line_dist⟩ (w ++ "\n") h]
  · refine ⟨⟨w ++ "\n", s.writes ++ [w ++ "\n"], obs.getD s.line_dist⟩, ?_,
      Or.inr ⟨w, hmem, rfl, rfl⟩⟩
    rw [frameStep_eval s obs (obs.getD s.line_dist) w rfl hmap,
      sendStep_ne ⟨s.last_sent_data, s.writes, obs.getD s.line_dist⟩ (w ++ "\n") h]

/-- C4 counterexample: the scripted distances [10, 50, 205] produce the
payloads `"ZERO\n"` and `"FIVE\n"` only — 2 writes, not 3, and level 1 is
never transmitted, because 50 maps to level 0 which is debounced against
the previous transmission. -/
theorem end_to_end_counterexample :
    runFrames initState [some 10, some 50, some 205] =
      Except.ok ⟨"FIVE\n", ["ZERO\n", "FIVE\n"], 205⟩ ∧
    (["ZERO\n", "FIVE\n"] : List String).length ≠ 3 ∧
    "ONE\n" ∉ (["ZERO\n", "FIVE\n"] : List String) :=
  ⟨run_script_eval, by decide, by decide⟩

/-- C4 amended: feeding the loop the distances [10, 50, 205] from the
initial "nothing sent yet" state yields the transmitted levels 0 and 5
with exactly 2 serial writes: 50 maps to level 0 (the truncated
interpolation is 35/37 < 1), which the debounce then suppresses. -/
theorem end_to_end_run :
    (runFrames initState [some 10, some 50, some 205]).map RunState.writes =
      Except.ok ["ZERO\n", "FIVE\n"] ∧
    (["ZERO\n", "FIVE\n"] : List String).length = 2 ∧
    map_distance_to_scale 50 15 200 = some "ZERO" := by
  refine ⟨?_, by decide, map_scale_eval_zero⟩
  rw [run_script_eval]
  rfl

/-- C5 counterexample: from the initial state, an iteration whose frame has
no hand still performs a serial write: `line_dist` holds its initial value
0, which maps to `"ZERO\n"`, and that differs from the initial
`last_sent_data`. -/
theorem detection_gap_counterexample :
    runFrames initState [none] = Except.ok ⟨"ZERO\n", ["ZERO\n"], 0⟩ ∧
    (runFrames initState [none]).map RunState.writes ≠ Except.ok [] := by
  refine ⟨run_nohand_eval, ?_⟩
  rw [run_nohand_eval]
  simp [Except.map]

/-- C5 amended: an iteration in which no hand is visible is not
transmission-free; it behaves exactly as if the cached `line_dist`
(initially 0) had been observed again — the level recomputed from the
stale distance is written whenever it differs from `last_sent_data`. -/
theorem detection_gap_behavior (s : RunState) :
    frameStep s none = frameStep s (some s.line_dist) := rfl

/-- One mediapipe landmark: normalized coordinates in the frame. -/
structure Landmark where
  x : ℚ
  y : ℚ

/-- One detected hand: mediapipe's fixed ordered sequence of 21 landmarks. -/
def HandLandmarks : Type := Fin 21 → Landmark

/-- Line 85 of `Hands.py`: `(int(landmark.x * w), int(landmark.y * h))`,
conversion of a normalized landmark to absolute pixel coordinates using the
`w`, `h` taken from the current frame's `img.shape`. -/
def toAbs (lm : Landmark) (w h : ℕ) : ℤ × ℤ :=
  (pyInt (lm.x * w), pyInt (lm.y * h))

/-- `enumerate(i.landmark)` over one hand. -/
def enumLandmarks (hd : HandLandmarks) : List (ℕ × Landmark) :=
  (List.finRange 21).map fun i => (i.val, hd i)

/-- The `positions` list built by `get_finger` for a known index set: over
every detected hand, every landmark whose index is in `points`, converted to
absolute pixel coordinates. `results = none` models a falsy
`multi_hand_landmarks`. -/
def fingerPositions (results : Option (List HandLandmarks)) (w h : ℕ)
    (points : List ℕ) : List (ℤ × ℤ) :=
  (results.getD []).flatMap fun hd =>
    ((enumLandmarks hd).filter fun p => points.contains p.1).map fun p => toAbs p.2 w h

/-- `return positions if positions else None` for a known finger. -/
def get_finger_known (results : Option (List HandLandmarks)) (w h : ℕ)
    (points : List ℕ) : Option (List (ℤ × ℤ)) :=
  if (fingerPositions results w h points).isEmpty then none
  else some (fingerPositions results w h points)

/-- The finger-name dispatch at the top of `get_finger`; `none` means the
name falls through to the `else` branch. -/
def fingerPoints (finger : String) : Option (List ℕ) :=
  if finger = "thumb" then some [2, 3, 4]
  else if finger = "index" then some [5, 6, 7, 8]
  else if finger = "middle" then some [9, 10, 11, 12]
  else if finger = "ring" then some [13, 14, 15, 16]
  else if finger = "pinky" then some [17, 18, 19, 20]
  else none

/-- Result type of `Hand.get_finger`: either one finger's positions (or
`None`), or — for the default or an unknown name — the five-element list of
all fingers' results. -/
inductive GetFingerResult where
  | single : Option (List (ℤ × ℤ)) → GetFingerResult
  | all : List (Option (List (ℤ × ℤ))) → GetFingerResult
deriving DecidableEq

/-- `Hand.get_finger` (lines 43–87 of `Hands.py`). -/
def get_finger (results : Option (List HandLandmarks)) (w h : ℕ)
    (finger : String) : GetFingerResult :=
  match fingerPoints finger with
  | some points => GetFingerResult.single (get_finger_known results w h points)
  | none =>
    GetFingerResult.all
      [get_finger_known results w h [2, 3, 4],
       get_finger_known results w h [5, 6, 7, 8],
       get_finger_known results w h [9, 10, 11, 12],
       get_finger_known results w h [13, 14, 15, 16],
       get_finger_known results w h [17, 18, 19, 20]]

/-- `points[i][-1][0] > points[i][-2][0]` with Python's failure behavior: a
`TypeError` if the entry is `None` (indexing into `NoneType`), an
`IndexError` if the list is too short. -/
def tipCompare (pos : Option (List (ℤ × ℤ))) : Except String Bool :=
  match pos with
  | none => Except.error "TypeError"
  | some ps =>
    match ps.reverse with
    | tip :: prev :: _ => Except.ok (decide (prev.1 < tip.1))
    | _ => Except.error "IndexError"

/-- `Hand.finger_count` (lines 89–117 of `Hands.py`): queries all five
fingers (the resulting `points` is a five-element list, hence always
truthy), evaluates the five extension comparisons in source order (index,
middle, ring, pinky, thumb), and looks the count up in `mapping`. -/
def finger_count (results : Option (List HandLandmarks)) (w h : ℕ) :
    Except String String :=
  (tipCompare (get_finger_known results w h [5, 6, 7, 8])).bind fun bIndex =>
  (tipCompare (get_finger_known results w h [9, 10, 11, 12])).bind fun bMiddle =>
  (tipCompare (get_finger_known results w h [13, 14, 15, 16])).bind fun bRing =>
  (tipCompare (get_finger_known results w h [17, 18, 19, 20])).bind fun bPinky =>
  (tipCompare (get_finger_known results w h [2, 3, 4])).bind fun bThumb =>
  match mapping (([bIndex, bMiddle, bRing, bPinky, bThumb].count true : ℕ) : ℤ) with
  | some name => Except.ok name
  | none => Except.error "KeyError"

theorem fingerPoints_of_unknown {finger : String}
    (h : finger ∉ ["thumb", "index", "middle", "ring", "pinky"]) :
    fingerPoints finger = none := by
  simp only [List.mem_cons, List.not_mem_nil, or_false, not_or] at h
  obtain ⟨h1, h2, h3, h4, h5⟩ := h
  rw [fingerPoints, if_neg h1, if_neg h2, if_neg h3, if_neg h4, if_neg h5]

/-- C7 counterexample: `get_finger` on the unknown finger name `"xyz"` with
no hand detected returns the five-element all-fingers list, not the single
"unavailable" (`None`) result the claim asserts. -/
theorem get_finger_unknown_counterexample :
    get_finger none 640 480 "xyz" =
      GetFingerResult.all [none, none, none, none, none] ∧
    get_finger none 640 480 "xyz" ≠ GetFingerResult.single none := by
  exact ⟨by decide, by decide⟩

/-- C7 amended: an unknown finger name never raises; it falls through to
the default branch and behaves exactly like the empty name, returning the
five-element list of all fingers' results (each `None` when that finger is
unavailable). -/
theorem get_finger_unknown (results : Option (List HandLandmarks)) (w h : ℕ)
    (finger : String) (hf : finger ∉ ["thumb", "index", "middle", "ring", "pinky"]) :
    get_finger results w h finger = get_finger results w h "" ∧
    get_finger results w h finger =
      GetFingerResult.all
        [get_finger_known results w h [2, 3, 4],
         get_finger_known results w h [5, 6, 7, 8],
         get_finger_known results w h [9, 10, 11, 12],
         get_finger_known results w h [13, 14, 15, 16],
         get_finger_known results w h [17, 18, 19, 20]] := by
  have hall : get_finger results w h finger =
      GetFingerResult.all
        [get_finger_known results w h [2, 3, 4],
         get_finger_known results w h [5, 6, 7, 8],
         get_finger_known results w h [9, 10, 11, 12],
         get_finger_known results w h [13, 14, 15, 16],
         get_finger_known results w h [17, 18, 19, 20]] := by
    unfold get_finger
    rw [fingerPoints_of_unknown hf]
  have hdefault : get_finger results w h "" =
      GetFingerResult.all
        [get_finger_known results w h [2, 3, 4],
         get_finger_known results w h [5, 6, 7, 8],
         get_finger_known results w h [9, 10, 11, 12],
         get_finger_known results w h [13, 14, 15, 16],
         get_finger_known results w h [17, 18, 19, 20]] := rfl
  exact ⟨hall.trans hdefault.symm, hall⟩

/-- Witness for C7 at the concrete unknown name `"xyz"`. -/
theorem get_finger_unknown_witness :
    ("xyz" ∉ ["thumb", "index", "middle", "ring", "pinky"]) ∧
    get_finger none 320 240 "xyz" = get_finger none 320 240 "" :=
  ⟨by decide, (get_finger_unknown none 320 240 "xyz" (by decide)).1⟩

/-- C6 counterexample: with no hand in the frame, `finger_count` raises a
`TypeError` (the five-finger query returns a truthy list of five `None`
entries, and `points[1][-1]` indexes `None`); it does not return
`"undetected"`. -/
theorem finger_count_counterexample :
    finger_count none 640 480 = Except.error "TypeError" ∧
    finger_count none 640 480 ≠ Except.ok "undetected" := by
  refine ⟨rfl, ?_⟩
  intro hcontra
  rw [show finger_count none 640 480 = Except.error "TypeError" from rfl] at hcontra
  exact Except.noConfusion hcontra

/-- C6 amended: `finger_count` never returns `"undetected"`. With no hand
present it raises a `TypeError` for every frame size, and whenever it does
return normally the result is one of the six count words `ZERO`..`FIVE`. -/
theorem finger_count_no_hand :
    (∀ w h : ℕ, finger_count none w h = Except.error "TypeError") ∧
    (∀ (results : Option (List HandLandmarks)) (w h : ℕ) (out : String),
      finger_count results w h = Except.ok out →
      out ∈ ["ZERO", "ONE", "TWO", "THREE", "FOUR", "FIVE"]) := by
  constructor
  · intro w h
    rfl
  · intro results w h out hout
    unfold finger_count at hout
    rcases e1 : tipCompare (get_finger_known results w h [5, 6, 7, 8]) with e | b1 <;>
      rw [e1] at hout <;> simp only [Except.bind] at hout
    · exact Except.noConfusion hout
    rcases e2 : tipCompare (get_finger_known results w h [9, 10, 11, 12]) with e | b2 <;>
      rw [e2] at hout <;> simp only [Except.bind] at hout
    · exact Except.noConfusion hout
    rcases e3 : tipCompare (get_finger_known results w h [13, 14, 15, 16]) with e | b3 <;>
      rw [e3] at hout <;> simp only [Except.bind] at hout
    · exact Except.noConfusion hout
    rcases e4 : tipCompare (get_finger_known results w h [17, 18, 19, 20]) with e | b4 <;>
      rw [e4] at hout <;> simp only [Except.bind] at hout
    · exact Except.noConfusion hout
    rcases e5 : tipCompare (get_finger_known results w h [2, 3, 4]) with e | b5 <;>
      rw [e5] at hout <;> simp only [Except.bind] at hout
    · exact Except.noConfusion hout
    have hcount : ([b1, b2, b3, b4, b5].count true) ≤ 5 := by
      cases b1 <;> cases b2 <;> cases b3 <;> cases b4 <;> cases b5 <;> decide
    obtain ⟨wd, hwd, hmem⟩ := mapping_mem (Int.ofNat_nonneg _) (by exact_mod_cast hcount)
    rw [hwd] at hout
    simp only [Except.ok.injEq] at hout
    exact hout ▸ hmem

/-- Witness for C6 at the concrete frame size 320x240. -/
theorem finger_count_no_hand_witness :
    finger_count none 320 240 = Except.error "TypeError" :=
  finger_count_no_hand.1 320 240

/-- A synthetic hand whose 21 landmarks all sit at normalized coordinates
(7/10, 7/10). -/
def constHand : HandLandmarks := fun _ => ⟨7 / 10, 7 / 10⟩

/-- C8 amended: for a detected hand, `get_finger` returns, per landmark of
the finger's fixed index set and in index order, the absolute pixel
coordinates `(int(x * w), int(y * h))` — `int()` truncation, not
`round` — computed from the width and height passed in for the current
frame. -/
theorem pixel_conversion (hand : HandLandmarks) (w h : ℕ) :
    get_finger (some [hand]) w h "index" =
      GetFingerResult.single
        (some [(pyInt ((hand 5).x * w), pyInt ((hand 5).y * h)),
               (pyInt ((hand 6).x * w), pyInt ((hand 6).y * h)),
               (pyInt ((hand 7).x * w), pyInt ((hand 7).y * h)),
               (pyInt ((hand 8).x * w), pyInt ((hand 8).y * h))]) ∧
    get_finger (some [hand]) w h "thumb" =
      GetFingerResult.single
        (some [(pyInt ((hand 2).x * w), pyInt ((hand 2).y * h)),
               (pyInt ((hand 3).x * w), pyInt ((hand 3).y * h)),
               (pyInt ((hand 4).x * w), pyInt ((hand 4).y * h))]) :=
  ⟨rfl, rfl⟩

/-- C8 counterexample: with every landmark at normalized (7/10, 7/10) and a
5×5 frame, the code produces pixel coordinate int(7/2) = 3, whereas the
claimed formula round(normalized * dimension) = round(7/2) gives 4. -/
theorem pixel_truncation_counterexample :
    get_finger (some [constHand]) 5 5 "thumb" =
      GetFingerResult.single (some [((3 : ℤ), (3 : ℤ)), (3, 3), (3, 3)]) ∧
    round ((7 / 10 : ℚ) * ((5 : ℕ) : ℚ)) = 4 ∧
    (3 : ℤ) ≠ 4 := by
  refine ⟨?_, by norm_num [round_eq, Int.floor_eq_iff], by decide⟩
  have habs : pyInt ((7 / 10 : ℚ) * ((5 : ℕ) : ℚ)) = 3 := by
    have hx : ((7 / 10 : ℚ) * ((5 : ℕ) : ℚ)) = 7 / 2 := by push_cast; ring
    rw [hx, pyInt_of_nonneg (by norm_num)]
    norm_num [Int.floor_eq_iff]
  have key : get_finger (some [constHand]) 5 5 "thumb" =
      GetFingerResult.single
        (some [(pyInt ((7 / 10 : ℚ) * ((5 : ℕ) : ℚ)), pyInt ((7 / 10 : ℚ) * ((5 : ℕ) : ℚ))),
               (pyInt ((7 / 10 : ℚ) * ((5 : ℕ) : ℚ)), pyInt ((7 / 10 : ℚ) * ((5 : ℕ) : ℚ))),
               (pyInt ((7 / 10 : ℚ) * ((5 : ℕ) : ℚ)), pyInt ((7 / 10 : ℚ) * ((5 : ℕ) : ℚ)))]) :=
    rfl
  rw [key, habs]

end GestureLights
